import Mathlib

/-!
Verification development for the CanvAI hybrid retrieval engine.

This file gives a shallow embedding, in Lean 4, of the retrieval core of the
repository (src/Backend/vector_db/vector.py), of the query planner
(src/llm.py) and of the assistant-response pipeline
(src/Backend/fast_api/chat_router.py), and proves or refutes the frozen
claims about them.

Modelling conventions:
- Python strings are modelled as Lean String / List Char; the character
  classes of the regular expressions (\w, \s, \d, letters) are modelled over
  ASCII, which covers every surface form the identifier patterns can emit.
- Python floats (distances, similarity scores, thresholds) are modelled as
  rational numbers; the score arithmetic used by the code is exact on the
  rationals.
- The FAISS store, the embeddings model and the HTTP capability are external
  collaborators: they enter as explicit oracle parameters (SearchEnv,
  Capability), and the observable actions of perform_search are recorded in
  an event trace so that ordering claims can be stated.
- The three regular expressions of extract_identifiers are embedded as
  dedicated scanners that reproduce the leftmost, non-overlapping semantics
  of re.finditer on these patterns, including word boundaries and the
  greedy/backtracking behaviour (which is deterministic for these patterns,
  because the adjacent character classes are disjoint).
-/

/-- Python str.isspace characters relevant to str.strip and the regex class
backslash-s (ASCII fragment). -/
def pyIsSpace (c : Char) : Bool :=
  c = ' ' || c = '\t' || c = '\n' || c = '\r' || c = '\x0b' || c = '\x0c'

/-- Python str.strip on a character list. -/
def pyStripL (l : List Char) : List Char :=
  ((l.dropWhile pyIsSpace).reverse.dropWhile pyIsSpace).reverse

/-- Python str.strip. -/
def pyStrip (s : String) : String := String.mk (pyStripL s.toList)

/-- Python str.lower (ASCII). -/
def pyLower (s : String) : String := String.mk (s.toList.map Char.toLower)

/-- Regex word character (ASCII fragment of backslash-w). -/
def isWordChar (c : Char) : Bool := c.isAlphanum || c = '_'

/-- Word-ness of an optional character; the edge of the string counts as
a non-word position. -/
def isWordOpt : Option Char → Bool
  | none => false
  | some c => isWordChar c

/-- True when the list is empty or starts with a non-word character: the
condition for a trailing regex word boundary after a word character. -/
def headNonWord : List Char → Bool
  | [] => true
  | c :: _ => !isWordChar c

/-- Exact prefix match on character lists. -/
def leadMatch : List Char → List Char → Bool
  | [], _ => true
  | _ :: _, [] => false
  | a :: as, b :: bs => a == b && leadMatch as bs

/-- Python substring containment (the `in` operator) on character lists. -/
def substrIn (needle : List Char) : List Char → Bool
  | [] => needle.isEmpty
  | c :: t => leadMatch needle (c :: t) || substrIn needle t

/-- Case-insensitive prefix match on character lists (ASCII). -/
def ciLeadMatch : List Char → List Char → Bool
  | [], _ => true
  | _ :: _, [] => false
  | a :: as, b :: bs => (a.toLower == b.toLower) && ciLeadMatch as bs

/-- Last character of a list, with a default. -/
def lastOr (l : List Char) (dflt : Char) : Char :=
  match l.getLast? with
  | some c => c
  | none => dflt

/-- Match of the regex (word boundary, literal needle, word boundary) with
IGNORECASE at the current position; prev is the character before the
position. -/
def wbHere (prev : Option Char) (needle hay : List Char) : Bool :=
  match needle with
  | [] => isWordOpt prev != isWordOpt hay.head?
  | a :: _ =>
    ciLeadMatch needle hay
      && (isWordOpt prev != isWordChar a)
      && (isWordChar (lastOr needle a) != isWordOpt (hay.drop needle.length).head?)

/-- Search for a word-bounded, case-insensitive occurrence of the needle
anywhere in the remaining hay (re.search of the compiled pattern). -/
def wbSearch (needle : List Char) : Option Char → List Char → Bool
  | prev, [] => wbHere prev needle []
  | prev, c :: t => wbHere prev needle (c :: t) || wbSearch needle (some c) t

/-- Word-boundary regex search over the whole hay. -/
def wbMatch (needle hay : List Char) : Bool := wbSearch needle none hay

/-- A retrieved chunk: page_content plus the metadata values (the code only
ever iterates metadata.values(), so the values are kept as a list of
strings). -/
structure Document where
  page_content : String
  metadata : List String
deriving DecidableEq, Repr

/-- The Identifier Set returned by extract_identifiers: four categorized
lists, in the insertion order of the Python dict. -/
structure Identifiers where
  course_codes : List String
  course_numbers : List String
  assignment_patterns : List String
  raw_numbers : List String
deriving DecidableEq, Repr

/-- Python any(identifiers.values()): true when some category is
non-empty. -/
def Identifiers.hasAny (i : Identifiers) : Bool :=
  !i.course_codes.isEmpty || !i.course_numbers.isEmpty
    || !i.assignment_patterns.isEmpty || !i.raw_numbers.isEmpty

/-- Total number of extracted identifier values across the categories. -/
def identifierCount (i : Identifiers) : Nat :=
  i.course_codes.length + i.course_numbers.length
    + i.assignment_patterns.length + i.raw_numbers.length

/-- All identifier values in dict order, as iterated by
should_require_identifier. -/
def allIdValues (i : Identifiers) : List String :=
  i.course_codes ++ i.course_numbers ++ i.assignment_patterns ++ i.raw_numbers

/-- Identifier values with the course_numbers category skipped, in dict
order, as iterated by the filter functions. -/
def nonCourseNumberValues (i : Identifiers) : List String :=
  i.course_codes ++ i.assignment_patterns ++ i.raw_numbers

/-- Concatenation of a list of lists. -/
def listJoin : List (List α) → List α
  | [] => []
  | x :: xs => x ++ listJoin xs

/-- Attempt of the course-code regex at the current position: a word
boundary, 4 to 6 letters (IGNORECASE), optional whitespace, an optional
hyphen, optional whitespace, exactly 3 digits, and a word boundary.
Returns the (department, digits) groups and the rest of the input. For this
pattern the greedy matching with backtracking is deterministic: a shorter
letter run is always followed by a letter, which no later pattern element
can consume. -/
def matchCourseAt (prevW : Bool) (l : List Char) : Option ((List Char × List Char) × List Char) :=
  if prevW then none
  else
    let dept := l.takeWhile Char.isAlpha
    let r1 := l.dropWhile Char.isAlpha
    if 4 ≤ dept.length && dept.length ≤ 6 then
      let r2 := r1.dropWhile pyIsSpace
      let r3 := match r2 with
        | '-' :: t => t
        | _ => r2
      let r4 := r3.dropWhile pyIsSpace
      match r4 with
      | d1 :: d2 :: d3 :: rest =>
        if d1.isDigit && d2.isDigit && d3.isDigit && headNonWord rest then
          some ((dept, [d1, d2, d3]), rest)
        else none
      | _ => none
    else none

/-- re.finditer scan of the course-code pattern: leftmost matches,
continuing after each match; prevW tracks whether the previous character is
a word character. The fuel is the input length, which bounds the number of
scan steps. -/
def scanCourse : Nat → Bool → List Char → List (List Char × List Char)
  | 0, _, _ => []
  | _ + 1, _, [] => []
  | fuel + 1, prevW, c :: rest =>
    match matchCourseAt prevW (c :: rest) with
    | some (p, rest2) => p :: scanCourse fuel true rest2
    | none => scanCourse fuel (isWordChar c) rest

/-- Assignment keywords in the alternation order of the regex. -/
def assignmentKeywords : List String :=
  ["assignment", "homework", "hw", "quiz", "exam", "test", "project", "lab"]

/-- Consume a keyword case-insensitively, returning the consumed original
characters and the rest. -/
def ciTakeKw : List Char → List Char → Option (List Char × List Char)
  | [], l => some ([], l)
  | _ :: _, [] => none
  | a :: as, b :: bs =>
    if a.toLower == b.toLower then
      (ciTakeKw as bs).map (fun p => (b :: p.1, p.2))
    else none

/-- Attempt of one alternation branch of the assignment pattern: the
keyword, optional whitespace, an optional hash, optional whitespace, one or
more digits, and a word boundary. Returns group(0) (the matched original
text) and the rest. -/
def tryAssignKw (l : List Char) (kw : List Char) : Option (List Char × List Char) :=
  match ciTakeKw kw l with
  | none => none
  | some (orig, r1) =>
    let ws1 := r1.takeWhile pyIsSpace
    let r2 := r1.dropWhile pyIsSpace
    let hsh : List Char := match r2 with
      | '#' :: _ => ['#']
      | _ => []
    let r3 := match r2 with
      | '#' :: t => t
      | _ => r2
    let ws2 := r3.takeWhile pyIsSpace
    let r4 := r3.dropWhile pyIsSpace
    let ds := r4.takeWhile Char.isDigit
    let r5 := r4.dropWhile Char.isDigit
    if !ds.isEmpty && headNonWord r5 then
      some (orig ++ ws1 ++ hsh ++ ws2 ++ ds, r5)
    else none

/-- Attempt of the assignment pattern at the current position: a word
boundary, then the keyword alternation tried in order. At most one keyword
can match at a given position (no keyword is a prefix of another one at the
same text), so the ordered first success is faithful. -/
def matchAssignAt (prevW : Bool) (l : List Char) : Option (List Char × List Char) :=
  if prevW then none
  else assignmentKeywords.findSome? (fun kw => tryAssignKw l kw.toList)

/-- re.finditer scan of the assignment pattern, recording group(0) for each
match, as the Python loop appends match.group(0). -/
def scanAssign : Nat → Bool → List Char → List String
  | 0, _, _ => []
  | _ + 1, _, [] => []
  | fuel + 1, prevW, c :: rest =>
    match matchAssignAt prevW (c :: rest) with
    | some (g0, rest2) => String.mk g0 :: scanAssign fuel true rest2
    | none => scanAssign fuel (isWordChar c) rest

/-- The common-number stoplist, exactly as the string literals in the
source. -/
def numberStoplist : List String := ["1", "2", "3", "10", "20", "100"]

/-- Attempt of the standalone-number pattern at the current position: a word
boundary, 1 to 3 digits, a word boundary. A digit run longer than 3, or a
run followed by a word character, never matches (backtracking dies on the
inner positions, which are not boundaries). -/
def matchNumAt (prevW : Bool) (l : List Char) : Option (List Char × List Char) :=
  if prevW then none
  else
    let ds := l.takeWhile Char.isDigit
    let r := l.dropWhile Char.isDigit
    if 1 ≤ ds.length && ds.length ≤ 3 && headNonWord r then some (ds, r) else none

/-- re.finditer scan of the standalone-number pattern, with the stoplist
filter applied to each match as in the Python loop body. -/
def scanNumbers : Nat → Bool → List Char → List String
  | 0, _, _ => []
  | _ + 1, _, [] => []
  | fuel + 1, prevW, c :: rest =>
    match matchNumAt prevW (c :: rest) with
    | some (ds, rest2) =>
      let s := String.mk ds
      if numberStoplist.contains s then scanNumbers fuel true rest2
      else s :: scanNumbers fuel true rest2
    | none => scanNumbers fuel (isWordChar c) rest

/-- Python str.lower followed by str.capitalize on an already lowered list:
lower every character, then upper-case the first one. -/
def capitalizeLower (l : List Char) : List Char :=
  match l.map Char.toLower with
  | [] => []
  | c :: t => c.toUpper :: t

/-- extract_identifiers from src/Backend/vector_db/vector.py: the three
finditer scans, with the two course-code surface forms (upper and
capitalized) plus the bare number recorded per course match. -/
def extract_identifiers (query : String) : Identifiers :=
  let q := query.toList
  let cs := scanCourse q.length false q
  { course_codes := listJoin (cs.map (fun p =>
      [String.mk (p.1.map Char.toUpper ++ p.2), String.mk (capitalizeLower p.1 ++ p.2)]))
  , course_numbers := cs.map (fun p => String.mk p.2)
  , assignment_patterns := scanAssign q.length false q
  , raw_numbers := scanNumbers q.length false q }

/-- adaptive_k_fetch from the source: the fetch count per database, with
the per-database multipliers. The query argument is unused by the code but
kept for signature fidelity. -/
def adaptive_k_fetch (query : String) (identifiers : Identifiers) (k : Nat) (db_name : String) : Nat :=
  if identifiers.hasAny = false then k
  else if db_name = "course_content_summary" then
    min (k * 3) (k + identifierCount identifiers * 2)
  else if db_name = "grades" then
    min (k * 2) (k + identifierCount identifiers)
  else if db_name = "courses" ∨ db_name = "users" then k
  else k * 2

/-- Similarity from an L2 distance of normalized vectors, as computed at
both score sites of the source: max(0, 1 - distance^2 / 2). -/
def simOf (distance : ℚ) : ℚ := max 0 (1 - distance * distance / 2)

/-- The min_score admission test (None means no filtering). -/
def msPass : Option ℚ → ℚ → Bool
  | none, _ => true
  | some m, s => decide (m ≤ s)

/-- One step of the score loop: convert the distance and keep the pair when
it passes the min_score filter. -/
def scorePair (min_score : Option ℚ) (p : Document × ℚ) : Option (Document × ℚ) :=
  let s := simOf p.2
  if msPass min_score s then some (p.1, s) else none

/-- Stable descending insertion by a rational key; together with
sortDescBy this is extensionally the Python stable sort with reverse=True
on the same key. -/
def insertDescBy (key : α → ℚ) (x : α) : List α → List α
  | [] => [x]
  | y :: ys => if key y < key x then x :: y :: ys else y :: insertDescBy key x ys

/-- Stable descending sort by a rational key. -/
def sortDescBy (key : α → ℚ) : List α → List α
  | [] => []
  | x :: xs => insertDescBy key x (sortDescBy key xs)

/-- Fuelled batch splitter; the fuel bounds the number of batches, and the
input length is always enough fuel because every batch consumes at least
one element. -/
def chunkListF : Nat → Nat → List α → List (List α)
  | 0, _, _ => []
  | _ + 1, _, [] => []
  | fuel + 1, bs, x :: xs => (x :: xs.take (bs - 1)) :: chunkListF fuel bs (xs.drop (bs - 1))

/-- Split a list into consecutive batches, as the range loop of
process_scores_batch does. -/
def chunkList (bs : Nat) (l : List α) : List (List α) := chunkListF l.length bs l

/-- process_scores_batch from the source: per-batch score conversion and
min_score filtering, concatenated, then sorted by similarity descending. -/
def process_scores_batch (pairs : List (Document × ℚ)) (min_score : Option ℚ)
    (batch_size : Nat := 100) : List (Document × ℚ) :=
  sortDescBy (fun p => p.2)
    (listJoin ((chunkList batch_size pairs).map (fun b => b.filterMap (scorePair min_score))))

/-- Whether some of the top 3 results contains some identifier value as a
lowered substring of its page content; this is the inner double loop of
should_require_identifier, which reads only doc.page_content. -/
def top3ContainsAnyId (results : List (Document × ℚ)) (ids : Identifiers) : Bool :=
  (results.take 3).any (fun p =>
    (allIdValues ids).any (fun v =>
      substrIn (pyLower v).toList (pyLower p.1.page_content).toList))

/-- should_require_identifier from the source; the threshold parameter of
the Python signature is unused by its body and therefore omitted. -/
def should_require_identifier (results : List (Document × ℚ)) (ids : Identifiers) : Bool :=
  if ids.hasAny = false then false
  else !top3ContainsAnyId results ids

/-- The combined search text of a result: lowered content, a space, and the
lowered metadata values joined by spaces, as built by the filter. -/
def combinedText (d : Document) : String :=
  pyLower d.page_content ++ " " ++ String.intercalate " " (d.metadata.map pyLower)

/-- filter_by_identifiers_optimized from the source: word-boundary,
case-insensitive patterns compiled from every identifier value except the
bare course numbers; when no pattern exists the results pass unchanged. -/
def filter_by_identifiers_optimized (results : List (Document × ℚ)) (ids : Identifiers) :
    List (Document × ℚ) :=
  if ids.hasAny = false then results
  else
    let patterns := (nonCourseNumberValues ids).map (fun v => (pyLower v).toList)
    if patterns.isEmpty then results
    else results.filter (fun p => patterns.any (fun pat => wbMatch pat (combinedText p.1).toList))

/-- The gate of the hybrid step in perform_search: identifiers were found
and the top results miss them. -/
def strictFilterApplied (results : List (Document × ℚ)) (ids : Identifiers) : Bool :=
  ids.hasAny && should_require_identifier results ids

/-- The fallback recomputation in perform_search when filtering empties the
results: rescore the raw pairs, apply min_score, and sort descending. -/
def fallbackResults (pairs : List (Document × ℚ)) (min_score : Option ℚ) : List (Document × ℚ) :=
  sortDescBy (fun p => p.2) (pairs.filterMap (scorePair min_score))

/-- The ranking stage of perform_search after the raw pairs are fetched:
scores, conditional strict filtering with the empty-filter fallback, and
truncation to k. -/
def searchRank (pairs : List (Document × ℚ)) (ids : Identifiers) (min_score : Option ℚ)
    (k : Nat) : List (Document × ℚ) :=
  let results := process_scores_batch pairs min_score
  let results2 :=
    if strictFilterApplied results ids then
      let f := filter_by_identifiers_optimized results ids
      if f.isEmpty then fallbackResults pairs min_score else f
    else results
  results2.take k

/-- Observable actions of perform_search, in execution order, used to state
the temporal claims: loading the embeddings model, loading the index store,
the result-cache lookup and hit, the query-embedding call, the index
similarity search, and the result-cache store. -/
inductive SEvent where
  | loadEmbeddings
  | loadDb (name : String)
  | cacheLookup
  | cacheHit
  | embedQuery
  | indexSearch
  | cacheStore
deriving DecidableEq, Repr

/-- The result-cache key: lower-cased trimmed query, database name, k and
min_score. The Python key is the pipe-joined format string of these four
components; the tuple is its content. -/
abbrev SearchKey := String × String × Nat × Option ℚ

/-- The process-wide result cache, newest entry first. -/
abbrev ResultCache := List (SearchKey × List (Document × ℚ))

/-- Cache-key construction from get_cached_results / cache_results. -/
def searchKey (query db_name : String) (k : Nat) (min_score : Option ℚ) : SearchKey :=
  (pyLower (pyStrip query), db_name, k, min_score)

/-- get_cached_results from the source: lookup of the key, None on miss. -/
def get_cached_results (cache : ResultCache) (query db_name : String) (k : Nat)
    (min_score : Option ℚ) : Option (List (Document × ℚ)) :=
  (cache.find? (fun kv => decide (kv.1 = searchKey query db_name k min_score))).map (fun kv => kv.2)

/-- cache_results from the source: store the result list under the key. -/
def cache_results (cache : ResultCache) (query db_name : String) (k : Nat)
    (min_score : Option ℚ) (results : List (Document × ℚ)) : ResultCache :=
  (searchKey query db_name k min_score, results) :: cache

/-- The external collaborators of perform_search: whether the named index
store loads, and the raw (document, distance) pairs that
similarity_search_with_score returns for a database, a cleaned query and a
fetch count. -/
structure SearchEnv where
  dbExists : String → Bool
  indexSearch : String → String → Nat → List (Document × ℚ)

/-- Outcome of one perform_search call: the returned value (None models the
error return), the result cache afterwards, and the event trace. -/
structure SearchOutcome where
  result : Option (List (Document × ℚ))
  cache : ResultCache
  trace : List SEvent
deriving DecidableEq, Repr

/-- The raw candidate pairs perform_search fetches for a query: the index
search on the stripped query with the adaptive fetch count. -/
def candidatePairs (env : SearchEnv) (query : String) (k : Nat) (db_name : String) :
    List (Document × ℚ) :=
  env.indexSearch db_name (pyStrip query)
    (adaptive_k_fetch (pyStrip query) (extract_identifiers (pyStrip query)) k db_name)

/-- The post-cache-miss part of perform_search: identifier extraction,
adaptive fetch, query embedding, index search, ranking, and the cache
store; an empty fetch returns the empty list without caching it. -/
def searchCompute (env : SearchEnv) (cache : ResultCache) (query : String) (k : Nat)
    (db_name : String) (min_score : Option ℚ) : SearchOutcome :=
  let pairs := candidatePairs env query k db_name
  if pairs.isEmpty then
    ⟨some [], cache,
      [SEvent.loadEmbeddings, SEvent.loadDb db_name, SEvent.cacheLookup,
       SEvent.embedQuery, SEvent.indexSearch]⟩
  else
    let final := searchRank pairs (extract_identifiers (pyStrip query)) min_score k
    ⟨some final, cache_results cache query db_name k min_score final,
      [SEvent.loadEmbeddings, SEvent.loadDb db_name, SEvent.cacheLookup,
       SEvent.embedQuery, SEvent.indexSearch, SEvent.cacheStore]⟩

/-- perform_search from the source, for the default recreate_if_missing =
False path used by the chat pipeline: the embeddings model is loaded, the
index store is loaded (None is returned when it is missing), then the
result cache is consulted, and only on a miss is the search computed. -/
def perform_search (env : SearchEnv) (cache : ResultCache) (query : String) (k : Nat)
    (db_name : String) (min_score : Option ℚ) : SearchOutcome :=
  if env.dbExists db_name then
    match get_cached_results cache query db_name k min_score with
    | some r =>
      ⟨some r, cache,
        [SEvent.loadEmbeddings, SEvent.loadDb db_name, SEvent.cacheLookup, SEvent.cacheHit]⟩
    | none => searchCompute env cache query k db_name min_score
  else ⟨none, cache, [SEvent.loadEmbeddings, SEvent.loadDb db_name]⟩

/-- Index-store actions: loading the store and searching it. -/
def isIndexStoreWork : SEvent → Bool
  | SEvent.loadDb _ => true
  | SEvent.indexSearch => true
  | _ => false

/-- Embedding computation actions. -/
def isEmbeddingWork : SEvent → Bool
  | SEvent.embedQuery => true
  | _ => false

/-- Modelled from the spec wording of claim C2: the cache lookup happens
before any embedding computation or index-store work, stated over the
event trace as: no such action precedes the first cache lookup. -/
def specLookupBeforeWork (trace : List SEvent) : Bool :=
  (trace.takeWhile (fun e => !(e = SEvent.cacheLookup : Bool))).all
    (fun e => !(isIndexStoreWork e || isEmbeddingWork e))

/-- Modelled from the spec wording of claim C1: identifiers were extracted
and none of the top 3 results contains, by case-insensitive substring match
against its content or its metadata, any identifier surface form. -/
def specStrictFilterCondition (results : List (Document × ℚ)) (ids : Identifiers) : Bool :=
  ids.hasAny && !((results.take 3).any (fun p =>
    (allIdValues ids).any (fun v =>
      substrIn (pyLower v).toList (pyLower p.1.page_content).toList
        || p.1.metadata.any (fun m => substrIn (pyLower v).toList (pyLower m).toList))))

/-- Demo document whose metadata carries the course code while the content
does not. -/
def docMeta : Document := ⟨"operating systems notes", ["CMPSC461"]⟩

/-- Demo document containing no identifier anywhere. -/
def docPlain : Document := ⟨"cooking recipes", []⟩

/-- Demo environment: the store always loads and the index search returns
docMeta at distance 0. -/
def envSingle : SearchEnv := ⟨fun _ => true, fun _ _ _ => [(docMeta, 0)]⟩

/-- Demo environment: the store always loads and the index search returns
docPlain at distance 0. -/
def envFallback : SearchEnv := ⟨fun _ => true, fun _ _ _ => [(docPlain, 0)]⟩

/-- Demo cache holding one entry for the key of the query grades on the
grades database with k = 10 and no min_score. -/
def cacheDemo : ResultCache := [(searchKey "grades" "grades" 10 none, [(docPlain, 1)])]

/-- Structured values produced by the planner parsers: JSON values, with
numbers kept as their source lexeme (their numeric value is never used by
the pipeline). -/
inductive JVal where
  | null
  | bool (b : Bool)
  | num (lexeme : String)
  | str (s : String)
  | arr (items : List JVal)
  | obj (fields : List (String × JVal))

/-- Whitespace accepted between tokens by json.loads and by the Python
literal grammar. -/
def isTokenWs (c : Char) : Bool := c = ' ' || c = '\t' || c = '\n' || c = '\r'

/-- Skip token whitespace. -/
def skipWsL (l : List Char) : List Char := l.dropWhile isTokenWs

/-- Hexadecimal digit test (ASCII). -/
def isHexDigitC (c : Char) : Bool :=
  c.isDigit || ('a' ≤ c && c ≤ 'f') || ('A' ≤ c && c ≤ 'F')

/-- Value of a hexadecimal digit. -/
def hexVal (c : Char) : Nat :=
  if c.isDigit then c.toNat - 48
  else if 'a' ≤ c && c ≤ 'f' then c.toNat - 87
  else c.toNat - 55

/-- String-body scanner after the opening quote: handles the common escape
sequences; strict mode (JSON) rejects the escaped single quote that the
Python literal grammar accepts. -/
def parseStrBody (strict : Bool) (q : Char) : List Char → Option (List Char × List Char)
  | [] => none
  | c :: rest =>
    if c = q then some ([], rest)
    else if c = '\\' then
      match rest with
      | 'u' :: h1 :: h2 :: h3 :: h4 :: rest3 =>
        if isHexDigitC h1 && isHexDigitC h2 && isHexDigitC h3 && isHexDigitC h4 then
          (parseStrBody strict q rest3).map (fun p =>
            (Char.ofNat (4096 * hexVal h1 + 256 * hexVal h2 + 16 * hexVal h3 + hexVal h4) :: p.1, p.2))
        else none
      | e :: rest2 =>
        let dec : Option Char :=
          if e = 'n' then some '\n'
          else if e = 't' then some '\t'
          else if e = 'r' then some '\r'
          else if e = 'b' then some '\x08'
          else if e = 'f' then some '\x0c'
          else if e = '/' then some '/'
          else if e = '\\' then some '\\'
          else if e = '"' then some '"'
          else if e = '\'' && !strict then some '\''
          else none
        match dec with
        | some ch => (parseStrBody strict q rest2).map (fun p => (ch :: p.1, p.2))
        | none => none
      | [] => none
    else (parseStrBody strict q rest).map (fun p => (c :: p.1, p.2))

/-- Characters that may appear in a number lexeme after the sign. -/
def isNumChar (c : Char) : Bool :=
  c.isDigit || c = '.' || c = 'e' || c = 'E' || c = '+' || c = '-'

/-- Number lexer: an optional sign (unary plus only in the permissive
Python-literal mode), then a digit/point/exponent run containing at least
one digit; the strict JSON grammar additionally requires the run to start
with a digit. -/
def parseNum (strict : Bool) (l : List Char) : Option (JVal × List Char) :=
  let core : List Char → List Char → Option (JVal × List Char) := fun sign t =>
    let body := t.takeWhile isNumChar
    let rest := t.dropWhile isNumChar
    let headDigit : Bool := match body with
      | c :: _ => c.isDigit
      | [] => false
    if (if strict then headDigit else body.any Char.isDigit) then
      some (JVal.num (String.mk (sign ++ body)), rest)
    else none
  match l with
  | '-' :: t => core ['-'] t
  | '+' :: t => if strict then none else core ['+'] t
  | _ => core [] l

/-- Keyword literal attempt: consume the keyword when it leads the
input. -/
def tryLit (kw : List Char) (v : JVal) (l : List Char) : Option (JVal × List Char) :=
  if leadMatch kw l then some (v, l.drop kw.length) else none

mutual

/-- Recursive-descent value parser shared by the strict JSON mode
(json.loads) and the permissive Python-literal mode (ast.literal_eval,
restricted to the literal shapes the planner can receive: strings with
either quote, numbers, True/False/None, lists and dicts). The fuel is an
upper bound on the nesting depth; every recursive call first consumes at
least one character, so the input length is always enough fuel. -/
def parseVal (strict : Bool) : Nat → List Char → Option (JVal × List Char)
  | 0, _ => none
  | fuel + 1, l =>
    match skipWsL l with
    | [] => none
    | c :: rest =>
      if c = '{' then
        match skipWsL rest with
        | '}' :: r2 => some (JVal.obj [], r2)
        | r2 => (parseObjRest strict fuel r2).map (fun p => (JVal.obj p.1, p.2))
      else if c = '[' then
        match skipWsL rest with
        | ']' :: r2 => some (JVal.arr [], r2)
        | r2 => (parseArrRest strict fuel r2).map (fun p => (JVal.arr p.1, p.2))
      else if c = '"' then
        (parseStrBody strict '"' rest).map (fun p => (JVal.str (String.mk p.1), p.2))
      else if c = '\'' && !strict then
        (parseStrBody strict '\'' rest).map (fun p => (JVal.str (String.mk p.1), p.2))
      else if strict then
        match tryLit "true".toList (JVal.bool true) (c :: rest) with
        | some p => some p
        | none =>
          match tryLit "false".toList (JVal.bool false) (c :: rest) with
          | some p => some p
          | none =>
            match tryLit "null".toList JVal.null (c :: rest) with
            | some p => some p
            | none => parseNum strict (c :: rest)
      else
        match tryLit "True".toList (JVal.bool true) (c :: rest) with
        | some p => some p
        | none =>
          match tryLit "False".toList (JVal.bool false) (c :: rest) with
          | some p => some p
          | none =>
            match tryLit "None".toList JVal.null (c :: rest) with
            | some p => some p
            | none => parseNum strict (c :: rest)

/-- Object members after the opening brace of a non-empty object: a
string key, a colon, a value, then a comma (with a trailing comma allowed
only in the permissive mode) or the closing brace. -/
def parseObjRest (strict : Bool) : Nat → List Char → Option (List (String × JVal) × List Char)
  | 0, _ => none
  | fuel + 1, l =>
    let parseKey : List Char → Option (String × List Char) := fun l1 =>
      match l1 with
      | '"' :: r => (parseStrBody strict '"' r).map (fun p => (String.mk p.1, p.2))
      | '\'' :: r =>
        if strict then none
        else (parseStrBody strict '\'' r).map (fun p => (String.mk p.1, p.2))
      | _ => none
    match parseKey (skipWsL l) with
    | none => none
    | some (k, r1) =>
      match skipWsL r1 with
      | ':' :: r2 =>
        match parseVal strict fuel r2 with
        | none => none
        | some (v, r3) =>
          match skipWsL r3 with
          | ',' :: r4 =>
            match skipWsL r4 with
            | '}' :: r5 => if strict then none else some ([(k, v)], r5)
            | _ => (parseObjRest strict fuel r4).map (fun p => ((k, v) :: p.1, p.2))
          | '}' :: r4 => some ([(k, v)], r4)
          | _ => none
      | _ => none

/-- Array items after the opening bracket of a non-empty array. -/
def parseArrRest (strict : Bool) : Nat → List Char → Option (List JVal × List Char)
  | 0, _ => none
  | fuel + 1, l =>
    match parseVal strict fuel l with
    | none => none
    | some (v, r1) =>
      match skipWsL r1 with
      | ',' :: r2 =>
        match skipWsL r2 with
        | ']' :: r3 => if strict then none else some ([v], r3)
        | _ => (parseArrRest strict fuel r2).map (fun p => (v :: p.1, p.2))
      | ']' :: r2 => some ([v], r2)
      | _ => none

end

/-- json.loads modelled on the JVal subset: strict parse of the whole
input. -/
def json_loads (s : String) : Option JVal :=
  match parseVal true (s.length + 1) s.toList with
  | some (v, rest) => if (skipWsL rest).isEmpty then some v else none
  | none => none

/-- ast.literal_eval modelled on the JVal subset: permissive parse of the
whole input. -/
def ast_literal_eval (s : String) : Option JVal :=
  match parseVal false (s.length + 1) s.toList with
  | some (v, rest) => if (skipWsL rest).isEmpty then some v else none
  | none => none

/-- Drop trailing Python whitespace. -/
def dropTrailingWs (l : List Char) : List Char :=
  (l.reverse.dropWhile pyIsSpace).reverse

/-- Removal of a leading markdown code fence, as the first re.sub of
_extract_json_text: optional whitespace, three backticks, an optional
case-insensitive json tag, then optional whitespace; when the fence is
absent the text is unchanged. -/
def stripLeadingFence (l : List Char) : List Char :=
  match l.dropWhile pyIsSpace with
  | '`' :: '`' :: '`' :: r3 =>
    let r4 := if ciLeadMatch "json".toList r3 then r3.drop 4 else r3
    r4.dropWhile pyIsSpace
  | _ => l

/-- Removal of a trailing markdown code fence, as the second re.sub of
_extract_json_text: optional whitespace, three backticks, optional
whitespace, end of string; when the fence is absent the text is
unchanged. -/
def stripTrailingFence (l : List Char) : List Char :=
  let t := dropTrailingWs l
  match t.reverse with
  | '`' :: '`' :: '`' :: r => dropTrailingWs r.reverse
  | _ => l

/-- Removal of one pair of surrounding quotes followed by a strip, as in
_extract_json_text. -/
def stripSurroundingQuotes (l : List Char) : List Char :=
  match l with
  | [] => []
  | c :: rest =>
    let lastC := lastOr (c :: rest) c
    if (c = '"' && lastC = '"') || (c = '\'' && lastC = '\'') then
      pyStripL ((c :: rest).drop 1).dropLast
    else c :: rest

/-- Slice from the first opening brace to the last closing brace, as the
find/rfind slice of _extract_json_text; unchanged when either brace is
missing or in the wrong order. -/
def braceSpan (l : List Char) : List Char :=
  match l.findIdx? (fun c => c = '{'), l.reverse.findIdx? (fun c => c = '}') with
  | some first, some jrev =>
    let last := l.length - 1 - jrev
    if first < last then (l.drop first).take (last + 1 - first) else l
  | _, _ => l

/-- _extract_json_text from src/llm.py: strip, remove code fences, remove
surrounding quotes, and extract the first-to-last brace span. -/
def extract_json_text (raw : String) : String :=
  String.mk (braceSpan (stripSurroundingQuotes (stripTrailingFence (stripLeadingFence (pyStripL raw.toList)))))

/-- Whether a parsed value is a dict or a list, the shapes the literal
branch of _parse_to_dict accepts. -/
def isDictOrList : JVal → Bool
  | JVal.obj _ => true
  | JVal.arr _ => true
  | _ => false

/-- Replace every single quote by a double quote, the quote-normalization
retry of _parse_to_dict. -/
def swapQuotes (s : String) : String :=
  String.mk (s.toList.map (fun c => if c = '\'' then '"' else c))

/-- _parse_to_dict from src/llm.py: strict JSON first, then the permissive
literal parse accepted only for dicts and lists, then the
quote-normalization retry; None models the final ValueError. -/
def parse_to_dict (s : String) : Option JVal :=
  match json_loads s with
  | some v => some v
  | none =>
    match (ast_literal_eval s).bind (fun v => if isDictOrList v then some v else none) with
    | some v => some v
    | none => json_loads (swapQuotes s)

/-- Outcome of the OpenRouter call as seen by query_to_structured: the
credential is missing, the HTTP transport raised, or a response arrived
with a status, the response text, and the extracted message content of the
model reply (the choices[0].message.content extraction of the source,
modelled as part of the capability). -/
inductive Capability where
  | noCredential
  | transportError (message : String)
  | response (status : Nat) (text : String) (raw_reply : String)

/-- The fixed message of the missing-credential RuntimeError in the
source. -/
def noCredentialMessage : String :=
  "OpenRouter API key is not configured in data/user_db/user_settings.csv."

/-- query_to_structured from src/llm.py over the capability oracle. The
missing credential and a non-200 status return an error-carrying plan; the
reply path cleans and parses the model output, returning an error-carrying
plan when every parse attempt fails. The requests.post call itself is
outside the try blocks of the source, so a transport exception propagates,
modelled by the Except.error constructor. -/
def query_to_structured : Capability → Except String JVal
  | Capability.noCredential =>
    Except.ok (JVal.obj [("error", JVal.str noCredentialMessage)])
  | Capability.transportError message => Except.error message
  | Capability.response status text raw_reply =>
    if status ≠ 200 then
      Except.ok (JVal.obj [("error", JVal.str ("API Error " ++ toString status ++ ": " ++ text))])
    else
      let cleaned := extract_json_text raw_reply
      match parse_to_dict cleaned with
      | some v => Except.ok v
      | none =>
        Except.ok (JVal.obj
          [ ("error", JVal.str "Failed to parse model output as JSON")
          , ("exception", JVal.str "Failed to parse text as JSON or Python literal")
          , ("raw_reply", JVal.str raw_reply)
          , ("cleaned_attempt", JVal.str cleaned) ])

/-- Key lookup in a parsed object (Python dict.get). -/
def getKey : JVal → String → Option JVal
  | JVal.obj fields, k => (fields.find? (fun f => f.1 == k)).map (fun f => f.2)
  | _, _ => none

/-- Python membership test for a key of a parsed object. -/
def hasKey (v : JVal) (k : String) : Bool := (getKey v k).isSome

/-- Whether a planner outcome is a returned object carrying the given
key. -/
def hasKeyE : Except String JVal → String → Bool
  | Except.ok v, k => hasKey v k
  | Except.error _, _ => false

/-- Python truthiness of a parsed value. -/
def truthy : JVal → Bool
  | JVal.null => false
  | JVal.bool b => b
  | JVal.str s => !s.isEmpty
  | JVal.num lex => lex.toList.any (fun c => c.isDigit && c ≠ '0')
  | JVal.arr items => !items.isEmpty
  | JVal.obj fields => !fields.isEmpty

/-- Truthiness of an optional value (None is falsy). -/
def truthyOpt : Option JVal → Bool
  | none => false
  | some v => truthy v

/-- Python str() of a parsed value for message interpolation; only the
string case is ever load-bearing for the claims. -/
def jvalText : JVal → String
  | JVal.str s => s
  | JVal.num lex => lex
  | JVal.bool true => "True"
  | JVal.bool false => "False"
  | JVal.null => "None"
  | JVal.arr _ => "[...]"
  | JVal.obj _ => "\x7b...\x7d"

/-- Whether a parsed value is a dict. -/
def isDict : JVal → Bool
  | JVal.obj _ => true
  | _ => false

/-- The named parameters of generate_user_response_from_file in
src/llm.py. -/
def generate_user_response_accepted_kwargs : List String := ["user_query", "file_path"]

/-- The keyword arguments passed to generate_user_response_from_file by
_collect_relevant_context in src/Backend/fast_api/chat_router.py. -/
def collect_call_kwargs : List String := ["user_query", "file_path", "conversation_history"]

/-- Keyword-argument binding check of a Python call: the first provided
keyword that the signature does not accept raises a TypeError with the
message Python produces. -/
def pyKwargsCheck (fname : String) (accepted provided : List String) : Except String Unit :=
  match provided.find? (fun p => !accepted.contains p) with
  | some bad =>
    Except.error (fname ++ "() got an unexpected keyword argument \x27" ++ bad ++ "\x27")
  | none => Except.ok ()

/-- The no-match reply of _collect_relevant_context. -/
def noMatchMessage : String :=
  "I couldn\x27t find anything in your records that matches that just yet, but I\x27ll keep looking as you share more."

/-- _collect_relevant_context from src/Backend/fast_api/chat_router.py over
the planner capability and the perform_search outcome (Except.error models
an exception from the search, the inner Option models the None return).
The synthesis call passes the keyword arguments of collect_call_kwargs, so
its binding is checked against the signature of
generate_user_response_from_file before any body could run; synthResponse
is what a successful call would return. -/
def collect_relevant_context (cap : Capability)
    (searchOutcome : Except String (Option (List Document))) (synthResponse : String) : String :=
  match query_to_structured cap with
  | Except.error exc => "I\x27m having trouble interpreting the question (" ++ exc ++ ")."
  | Except.ok structured =>
    if !isDict structured || hasKey structured "error" then
      match (match structured with
             | JVal.obj _ => getKey structured "error"
             | _ => none) with
      | none => "I couldn\x27t understand that request just yet."
      | some JVal.null => "I couldn\x27t understand that request just yet."
      | some detail => "I couldn\x27t process the request: " ++ jvalText detail
    else if !truthyOpt (getKey structured "table_to_query") then
      "Could you share a little more so I can look up the right information?"
    else
      match searchOutcome with
      | Except.error exc => "I ran into an issue searching the knowledge base (" ++ exc ++ ")."
      | Except.ok none => noMatchMessage
      | Except.ok (some []) => noMatchMessage
      | Except.ok (some (_ :: _)) =>
        match pyKwargsCheck "generate_user_response_from_file"
            generate_user_response_accepted_kwargs collect_call_kwargs with
        | Except.error exc =>
          "I found some notes but couldn\x27t craft a response (" ++ exc ++ ")."
        | Except.ok _ =>
          if synthResponse.isEmpty then "Let me know how else I can help!" else synthResponse


/-- Decimal value of a digit string, used to state the stoplist claim in
terms of numeric values. -/
def decimalValue (s : String) : Nat :=
  s.toList.foldl (fun acc c => 10 * acc + (c.toNat - 48)) 0

/-! Helper lemmas about the sorting, batching and scoring primitives. -/

theorem mem_insertDescBy (key : α → ℚ) (x : α) (l : List α) (a : α) :
    a ∈ insertDescBy key x l ↔ a = x ∨ a ∈ l := by
  induction l with
  | nil => simp [insertDescBy]
  | cons y ys ih =>
    simp only [insertDescBy]
    split
    · simp
    · simp [ih]
      tauto

theorem mem_sortDescBy (key : α → ℚ) (l : List α) (a : α) :
    a ∈ sortDescBy key l ↔ a ∈ l := by
  induction l with
  | nil => simp [sortDescBy]
  | cons x xs ih => simp [sortDescBy, mem_insertDescBy, ih]

theorem pairwise_insertDescBy (key : α → ℚ) (x : α) (l : List α)
    (h : l.Pairwise (fun a b => key b ≤ key a)) :
    (insertDescBy key x l).Pairwise (fun a b => key b ≤ key a) := by
  induction l with
  | nil => simp [insertDescBy]
  | cons y ys ih =>
    rw [List.pairwise_cons] at h
    simp only [insertDescBy]
    split
    · rename_i hlt
      rw [List.pairwise_cons]
      constructor
      · intro b hb
        rcases List.mem_cons.mp hb with rfl | hb2
        · exact le_of_lt hlt
        · exact le_trans (h.1 b hb2) (le_of_lt hlt)
      · exact List.pairwise_cons.mpr h
    · rename_i hnlt
      rw [List.pairwise_cons]
      constructor
      · intro b hb
        rcases (mem_insertDescBy key x ys b).mp hb with rfl | hb2
        · exact not_lt.mp hnlt
        · exact h.1 b hb2
      · exact ih h.2

theorem pairwise_sortDescBy (key : α → ℚ) (l : List α) :
    (sortDescBy key l).Pairwise (fun a b => key b ≤ key a) := by
  induction l with
  | nil => simp [sortDescBy]
  | cons x xs ih => exact pairwise_insertDescBy key x _ ih

theorem chunkListF_filterMap (f : α → Option β) :
    ∀ (fuel bs : Nat) (l : List α), l.length ≤ fuel →
      listJoin ((chunkListF fuel bs l).map (fun b => b.filterMap f)) = l.filterMap f := by
  intro fuel
  induction fuel with
  | zero =>
    intro bs l h
    have hl : l = [] := List.eq_nil_of_length_eq_zero (Nat.le_zero.mp h)
    subst hl
    simp [chunkListF, listJoin]
  | succ n ih =>
    intro bs l h
    cases l with
    | nil => simp [chunkListF, listJoin]
    | cons x xs =>
      simp only [chunkListF, List.map, listJoin]
      rw [ih bs (xs.drop (bs - 1)) (by
        have hd := List.length_drop (bs - 1) xs
        simp only [List.length_cons] at h
        omega)]
      rw [← List.filterMap_append]
      congr 1
      rw [List.cons_append, List.take_append_drop]

theorem mem_process_scores_batch (pairs : List (Document × ℚ)) (ms : Option ℚ) (bs : Nat)
    (p : Document × ℚ) :
    p ∈ process_scores_batch pairs ms bs ↔ ∃ a, a ∈ pairs ∧ scorePair ms a = some p := by
  unfold process_scores_batch chunkList
  rw [mem_sortDescBy, chunkListF_filterMap _ _ _ _ (le_refl _)]
  exact List.mem_filterMap

theorem simOf_nonneg (d : ℚ) : 0 ≤ simOf d := le_max_left 0 _

theorem simOf_le_one (d : ℚ) : simOf d ≤ 1 := by
  unfold simOf
  have h2 : (1 : ℚ) - d * d / 2 ≤ 1 := by
    have h0 : 0 ≤ d * d / 2 := div_nonneg (mul_self_nonneg d) (by norm_num)
    linarith
  exact max_le (by norm_num) h2

theorem hasAny_one_le_count (i : Identifiers) (h : i.hasAny = true) : 1 ≤ identifierCount i := by
  unfold Identifiers.hasAny at h
  unfold identifierCount
  simp only [Bool.or_eq_true, Bool.not_eq_true', List.isEmpty_eq_false] at h
  rcases h with ((h | h) | h) | h <;>
    · have := List.length_pos.mpr h
      omega

/-- C3: for a query with no extracted identifiers, adaptive_k_fetch returns
exactly k for every database; for a query with at least one identifier and
k at least 1, the fetch count for the grades database is strictly greater
than k and at most k plus the identifier count, and the fetch count for the
users database is exactly k. -/
theorem c3_adaptive_k_fetch (q : String) (k : Nat) :
    ((extract_identifiers q).hasAny = false →
      ∀ db, adaptive_k_fetch q (extract_identifiers q) k db = k) ∧
    ((extract_identifiers q).hasAny = true → 1 ≤ k →
      k < adaptive_k_fetch q (extract_identifiers q) k "grades" ∧
      adaptive_k_fetch q (extract_identifiers q) k "grades" ≤
        k + identifierCount (extract_identifiers q)) ∧
    ((extract_identifiers q).hasAny = true →
      adaptive_k_fetch q (extract_identifiers q) k "users" = k) := by
  have e1 : ("grades" : String) ≠ "course_content_summary" := by decide
  have e2 : ("users" : String) ≠ "course_content_summary" := by decide
  have e3 : ("users" : String) ≠ "grades" := by decide
  refine ⟨?_, ?_, ?_⟩
  · intro h db
    simp [adaptive_k_fetch, h]
  · intro h hk
    have hcount := hasAny_one_le_count _ h
    constructor
    · simp [adaptive_k_fetch, h, e1] <;> omega
    · simp [adaptive_k_fetch, h, e1]
  · intro h
    simp [adaptive_k_fetch, h, e2, e3]

/-- Witness for C3 at a concrete query and k. -/
theorem c3_adaptive_k_fetch_witness :
    (5 < adaptive_k_fetch "CMPSC461" (extract_identifiers "CMPSC461") 5 "grades" ∧
      adaptive_k_fetch "CMPSC461" (extract_identifiers "CMPSC461") 5 "grades" ≤
        5 + identifierCount (extract_identifiers "CMPSC461")) ∧
    adaptive_k_fetch "CMPSC461" (extract_identifiers "CMPSC461") 5 "users" = 5 ∧
    adaptive_k_fetch "hello there" (extract_identifiers "hello there") 5 "grades" = 5 := by
  have h := c3_adaptive_k_fetch "CMPSC461" 5
  have h2 := c3_adaptive_k_fetch "hello there" 5
  exact ⟨h.2.1 (by decide) (by omega), h.2.2 (by decide), h2.1 (by decide) "grades"⟩

/-- C7: every pair produced by process_scores_batch carries the similarity
max(0, 1 - distance^2 / 2) of some input pair, that similarity lies in
[0, 1], every result is at or above min_score when one is given, and the
output is sorted by similarity in descending order. -/
theorem c7_process_scores_batch (pairs : List (Document × ℚ)) (min_score : Option ℚ) :
    (∀ d s, (d, s) ∈ process_scores_batch pairs min_score →
      ((∃ dist, (d, dist) ∈ pairs ∧ s = simOf dist) ∧ 0 ≤ s ∧ s ≤ 1 ∧
        ∀ m, min_score = some m → m ≤ s)) ∧
    (process_scores_batch pairs min_score).Pairwise (fun a b => b.2 ≤ a.2) := by
  constructor
  · intro d s hmem
    rw [mem_process_scores_batch] at hmem
    obtain ⟨a, ha, hsp⟩ := hmem
    unfold scorePair at hsp
    by_cases hpass : msPass min_score (simOf a.2) = true
    · rw [if_pos hpass] at hsp
      have heq := Option.some.inj hsp
      have hd : a.1 = d := (Prod.mk.injEq _ _ _ _).mp heq |>.1
      have hs : simOf a.2 = s := (Prod.mk.injEq _ _ _ _).mp heq |>.2
      refine ⟨⟨a.2, ?_, hs.symm⟩, hs ▸ simOf_nonneg a.2, hs ▸ simOf_le_one a.2, ?_⟩
      · rw [← hd]
        exact ha
      · intro m hm
        subst hm
        unfold msPass at hpass
        rw [← hs]
        exact of_decide_eq_true hpass
    · rw [if_neg hpass] at hsp
      exact absurd hsp (by simp)
  · unfold process_scores_batch
    exact pairwise_sortDescBy _ _

/-- Witness for C7 at a concrete pair list. -/
theorem c7_process_scores_batch_witness :
    ((∃ dist, (docPlain, dist) ∈ [(docPlain, (0 : ℚ))] ∧ simOf 0 = simOf dist) ∧
      0 ≤ simOf 0 ∧ simOf 0 ≤ 1 ∧ ∀ m, (none : Option ℚ) = some m → m ≤ simOf 0) ∧
    (process_scores_batch [(docPlain, (0 : ℚ))] none).Pairwise (fun a b => b.2 ≤ a.2) := by
  have h := c7_process_scores_batch [(docPlain, (0 : ℚ))] none
  exact ⟨h.1 docPlain (simOf 0) (List.mem_singleton.mpr rfl), h.2⟩

/-- C8: extract_identifiers on the query grades in CMPSC461 records both
course-code surface forms CMPSC461 and Cmpsc461 together with the bare
number 461 in course_numbers, while the plain word grades yields an
Identifier Set whose four lists are all empty. -/
theorem c8_extract_identifiers_examples :
    ("CMPSC461" ∈ (extract_identifiers "grades in CMPSC461").course_codes ∧
      "Cmpsc461" ∈ (extract_identifiers "grades in CMPSC461").course_codes ∧
      "461" ∈ (extract_identifiers "grades in CMPSC461").course_numbers) ∧
    extract_identifiers "grades" = ⟨[], [], [], []⟩ := by decide

/-- C9 counterexample: the standalone number 01 has value 1, which is in
the stoplist, yet it lands in raw_numbers because the code compares string
forms. -/
theorem c9_counterexample :
    "01" ∈ (extract_identifiers "page 01").raw_numbers ∧
    decimalValue "01" = 1 ∧ (1 : Nat) ∈ [1, 2, 3, 10, 20, 100] := by decide

theorem scanNumbers_stoplist :
    ∀ (fuel : Nat) (w : Bool) (l : List Char) (s : String),
      s ∈ scanNumbers fuel w l → numberStoplist.contains s = false := by
  intro fuel
  induction fuel with
  | zero =>
    intro w l s h
    simp [scanNumbers] at h
  | succ n ih =>
    intro w l s h
    cases l with
    | nil => simp [scanNumbers] at h
    | cons c rest =>
      simp only [scanNumbers] at h
      split at h
      · split at h
        · exact ih _ _ _ h
        · rename_i hns
          rcases List.mem_cons.mp h with rfl | h2
          · exact Bool.not_eq_true _ ▸ (by simpa using hns)
          · exact ih _ _ _ h2
      · exact ih _ _ _ h

/-- C9 amended: every string recorded in raw_numbers is outside the
stoplist of string forms 1, 2, 3, 10, 20, 100 (the code compares decimal
string forms, not numeric values, so 01 passes the filter); and the query
show assignment 1 records assignment 1 in assignment_patterns while its
raw_numbers list does not contain 1. -/
theorem c9_amended (q s : String) (hs : s ∈ (extract_identifiers q).raw_numbers) :
    numberStoplist.contains s = false ∧
    (extract_identifiers "show assignment 1").assignment_patterns = ["assignment 1"] ∧
    "1" ∉ (extract_identifiers "show assignment 1").raw_numbers := by
  refine ⟨?_, by decide, by decide⟩
  unfold extract_identifiers at hs
  exact scanNumbers_stoplist _ _ _ _ hs

/-- Witness for C9 amended. -/
theorem c9_amended_witness :
    numberStoplist.contains "01" = false ∧
    (extract_identifiers "show assignment 1").assignment_patterns = ["assignment 1"] ∧
    "1" ∉ (extract_identifiers "show assignment 1").raw_numbers :=
  c9_amended "page 01" "01" (by decide)

theorem extract_course_codes_ne_nil (q : String)
    (h : (extract_identifiers q).course_numbers ≠ []) :
    (extract_identifiers q).course_codes ≠ [] := by
  have hy : (extract_identifiers q).course_numbers =
      (scanCourse q.toList.length false q.toList).map (fun p => String.mk p.2) := rfl
  have hx : (extract_identifiers q).course_codes =
      listJoin ((scanCourse q.toList.length false q.toList).map (fun p =>
        [String.mk (p.1.map Char.toUpper ++ p.2), String.mk (capitalizeLower p.1 ++ p.2)])) := rfl
  rw [hy] at h
  rw [hx]
  revert h
  generalize scanCourse q.toList.length false q.toList = cs
  intro h
  cases cs with
  | nil => simp at h
  | cons p ps => simp [listJoin]

theorem nonCNV_ne_nil (q : String) (h : (extract_identifiers q).hasAny = true) :
    nonCourseNumberValues (extract_identifiers q) ≠ [] := by
  unfold Identifiers.hasAny at h
  simp only [Bool.or_eq_true, Bool.not_eq_true', List.isEmpty_eq_false] at h
  unfold nonCourseNumberValues
  simp only [ne_eq, List.append_eq_nil, not_and]
  rcases h with ((h | h) | h) | h
  · intro hc
    exact absurd hc.1 h
  · intro hc
    exact absurd hc.1 (extract_course_codes_ne_nil q h)
  · intro hc
    exact absurd hc.2 h
  · intro hc hr
    exact absurd hr h

/-- C1 counterexample: for the query CMPSC461 and a single result whose
metadata carries CMPSC461 while its content does not, the code applies the
strict filter although the spec condition (content or metadata) says it
must not; the full search pipeline indeed runs the filter on this input. -/
theorem c1_counterexample :
    strictFilterApplied [(docMeta, (1 : ℚ))] (extract_identifiers "CMPSC461") = true ∧
    specStrictFilterCondition [(docMeta, (1 : ℚ))] (extract_identifiers "CMPSC461") = false ∧
    (perform_search envSingle [] "CMPSC461" 10 "grades" none).result = some [(docMeta, simOf 0)] :=
  ⟨by decide, by decide, rfl⟩

/-- C1 amended: in perform_search, strict identifier filtering is applied
exactly when the extracted Identifier Set is non-empty and none of the top
3 results contains any identifier surface form as a case-insensitive
substring of its page content alone (metadata is not consulted by the
gate); when identifiers exist, the filter keeps exactly the results whose
content or metadata contains a word-bounded, case-insensitive occurrence of
some identifier other than a bare course number. -/
theorem c1_amended (q : String) (results : List (Document × ℚ)) :
    (strictFilterApplied results (extract_identifiers q) = true ↔
      ((extract_identifiers q).hasAny = true ∧
        ∀ p ∈ results.take 3, ∀ v ∈ allIdValues (extract_identifiers q),
          substrIn (pyLower v).toList (pyLower p.1.page_content).toList = false)) ∧
    ((extract_identifiers q).hasAny = true →
      ∀ d s, ((d, s) ∈ filter_by_identifiers_optimized results (extract_identifiers q) ↔
        ((d, s) ∈ results ∧
          (nonCourseNumberValues (extract_identifiers q)).any
            (fun v => wbMatch (pyLower v).toList (combinedText d).toList) = true))) := by
  constructor
  · by_cases h : (extract_identifiers q).hasAny = true
    · simp [strictFilterApplied, should_require_identifier, top3ContainsAnyId, h,
        List.any_eq_true]
    · have h2 : (extract_identifiers q).hasAny = false := by
        cases hx : (extract_identifiers q).hasAny
        · rfl
        · exact absurd hx h
      simp [strictFilterApplied, h2]
  · intro h d s
    unfold filter_by_identifiers_optimized
    rw [if_neg (by simp [h])]
    have hpat : ¬(((nonCourseNumberValues (extract_identifiers q)).map
        (fun v => (pyLower v).toList)).isEmpty = true) := by
      simp only [List.isEmpty_iff, List.map_eq_nil_iff]
      exact nonCNV_ne_nil q h
    rw [if_neg hpat]
    rw [List.mem_filter]
    simp [List.any_map, Function.comp]

/-- Witness for C1 amended. -/
theorem c1_amended_witness :
    (docMeta, (1 : ℚ)) ∈
        filter_by_identifiers_optimized [(docMeta, (1 : ℚ))] (extract_identifiers "CMPSC461") ↔
      ((docMeta, (1 : ℚ)) ∈ [(docMeta, (1 : ℚ))] ∧
        (nonCourseNumberValues (extract_identifiers "CMPSC461")).any
          (fun v => wbMatch (pyLower v).toList (combinedText docMeta).toList) = true) :=
  (c1_amended "CMPSC461" [(docMeta, (1 : ℚ))]).2 (by decide) docMeta 1

/-- C2 counterexample: with the key present in the cache, the cached list
is returned, but the trace shows the index store is loaded before the cache
lookup, refuting the ordering part of the claim. -/
theorem c2_counterexample :
    get_cached_results cacheDemo "grades" "grades" 10 none = some [(docPlain, 1)] ∧
    (perform_search envSingle cacheDemo "grades" 10 "grades" none).result = some [(docPlain, 1)] ∧
    specLookupBeforeWork (perform_search envSingle cacheDemo "grades" 10 "grades" none).trace =
      false :=
  ⟨rfl, rfl, by decide⟩

/-- C2 amended: when the cache key of a perform_search call is present in
the Result Cache and the index store loads, the cached list is returned
with the cache unchanged and with no query-embedding computation and no
index similarity search; however the embeddings model and the index store
are loaded before the cache lookup, as the trace records. -/
theorem c2_amended (env : SearchEnv) (cache : ResultCache) (q db : String) (k : Nat)
    (ms : Option ℚ) (r : List (Document × ℚ))
    (hdb : env.dbExists db = true)
    (hhit : get_cached_results cache q db k ms = some r) :
    (perform_search env cache q k db ms).result = some r ∧
    (perform_search env cache q k db ms).cache = cache ∧
    (perform_search env cache q k db ms).trace =
      [SEvent.loadEmbeddings, SEvent.loadDb db, SEvent.cacheLookup, SEvent.cacheHit] := by
  unfold perform_search
  rw [hdb, hhit]
  exact ⟨rfl, rfl, rfl⟩

/-- Witness for C2 amended. -/
theorem c2_amended_witness :
    (perform_search envSingle cacheDemo "grades" 10 "grades" none).result =
        some [(docPlain, 1)] ∧
    (perform_search envSingle cacheDemo "grades" 10 "grades" none).cache = cacheDemo ∧
    (perform_search envSingle cacheDemo "grades" 10 "grades" none).trace =
      [SEvent.loadEmbeddings, SEvent.loadDb "grades", SEvent.cacheLookup, SEvent.cacheHit] :=
  c2_amended envSingle cacheDemo "grades" "grades" 10 none [(docPlain, 1)] rfl rfl

/-- C4: whenever the strict identifier filter removes every candidate,
perform_search returns the unfiltered candidates with scores converted from
distances, the min_score filter applied, sorted descending by score and
truncated to k, instead of the empty list. -/
theorem c4_fallback (env : SearchEnv) (cache : ResultCache) (q db : String) (k : Nat)
    (ms : Option ℚ)
    (hdb : env.dbExists db = true)
    (hmiss : get_cached_results cache q db k ms = none)
    (hpairs : candidatePairs env q k db ≠ [])
    (hgate : strictFilterApplied (process_scores_batch (candidatePairs env q k db) ms)
      (extract_identifiers (pyStrip q)) = true)
    (hempty : filter_by_identifiers_optimized
      (process_scores_batch (candidatePairs env q k db) ms)
      (extract_identifiers (pyStrip q)) = []) :
    (perform_search env cache q k db ms).result =
      some ((fallbackResults (candidatePairs env q k db) ms).take k) := by
  have hne : (candidatePairs env q k db).isEmpty = false := by
    rw [List.isEmpty_eq_false]
    exact hpairs
  simp only [perform_search, hdb, hmiss, if_true]
  show (searchCompute env cache q k db ms).result = _
  simp only [searchCompute, hne, Bool.false_eq_true, if_false]
  show some (searchRank (candidatePairs env q k db) (extract_identifiers (pyStrip q)) ms k) = _
  simp only [searchRank, hgate, if_true, hempty, List.isEmpty_nil]

/-- Witness for C4. -/
theorem c4_fallback_witness :
    (perform_search envFallback [] "CMPSC461" 10 "grades" none).result =
      some ((fallbackResults (candidatePairs envFallback "CMPSC461" 10 "grades") none).take 10) :=
  c4_fallback envFallback [] "CMPSC461" "grades" 10 none rfl rfl (by decide) (by decide)
    (by decide)

/-- C6 counterexample: a transport-level failure of the HTTP call
propagates as an exception instead of an error plan; and a reply whose
Python-literal parse succeeds with a non-dict, non-list value is not
returned (the claimed first-success rule): the planner returns an error
plan instead. -/
theorem c6_counterexample :
    query_to_structured (Capability.transportError "Connection refused") =
      Except.error "Connection refused" ∧
    ast_literal_eval "+5" = some (JVal.num "+5") ∧
    isDictOrList (JVal.num "+5") = false ∧
    hasKeyE (query_to_structured (Capability.response 200 "" "+5")) "error" = true :=
  ⟨rfl, rfl, rfl, rfl⟩

/-- C6 amended: query_to_structured returns an error-carrying plan when
the credential is missing, when the HTTP status is not 200, and when all
parse attempts on the cleaned reply fail; an exception of the HTTP
transport itself propagates to the caller. Model output is cleaned by
stripping code fences and surrounding quotes and slicing from the first
opening brace to the last closing brace, then parsed by strict JSON, then
the permissive literal parse accepted only for dicts and lists, then the
quote-normalization retry, in that order; a reply wrapped in json code
fences around a table_to_query object parses to a plan naming grades. -/
theorem c6_amended (status : Nat) (text reply m s : String) (hs : status ≠ 200) :
    hasKeyE (query_to_structured Capability.noCredential) "error" = true ∧
    hasKeyE (query_to_structured (Capability.response status text reply)) "error" = true ∧
    query_to_structured (Capability.transportError m) = Except.error m ∧
    (parse_to_dict (extract_json_text reply) = none →
      hasKeyE (query_to_structured (Capability.response 200 text reply)) "error" = true) ∧
    (∀ v, json_loads s = some v → parse_to_dict s = some v) ∧
    (∀ v, json_loads s = none → ast_literal_eval s = some v → isDictOrList v = true →
      parse_to_dict s = some v) ∧
    (json_loads s = none →
      (ast_literal_eval s).bind (fun v => if isDictOrList v then some v else none) = none →
      parse_to_dict s = json_loads (swapQuotes s)) ∧
    query_to_structured
        (Capability.response 200 "" "```json\n\x7b\"table_to_query\": \"grades\"\x7d\n```") =
      Except.ok (JVal.obj [("table_to_query", JVal.str "grades")]) := by
  refine ⟨rfl, ?_, rfl, ?_, ?_, ?_, ?_, rfl⟩
  · simp only [query_to_structured]
    rw [if_pos hs]
    rfl
  · intro h
    simp only [query_to_structured]
    rw [if_neg (fun hh => hh rfl)]
    rw [h]
    rfl
  · intro v h
    unfold parse_to_dict
    rw [h]
  · intro v h1 h2 h3
    unfold parse_to_dict
    rw [h1, h2]
    simp [h3]
  · intro h1 h2
    unfold parse_to_dict
    rw [h1, h2]

/-- Witness for C6 amended. -/
theorem c6_amended_witness :
    hasKeyE (query_to_structured Capability.noCredential) "error" = true ∧
    hasKeyE (query_to_structured (Capability.response 404 "Unauthorized" "x")) "error" = true ∧
    query_to_structured (Capability.transportError "boom") = Except.error "boom" :=
  ⟨(c6_amended 404 "Unauthorized" "x" "boom" "[1]" (by omega)).1,
    (c6_amended 404 "Unauthorized" "x" "boom" "[1]" (by omega)).2.1,
    (c6_amended 404 "Unauthorized" "x" "boom" "[1]" (by omega)).2.2.1⟩

/-- C10: whenever query planning succeeds with a truthy table and
retrieval returns a non-empty result list, the synthesis call of
_collect_relevant_context passes the keyword argument conversation_history,
which the signature of generate_user_response_from_file does not accept, so
the call raises a TypeError and the pipeline returns the fallback string
instead of an LLM-generated answer. -/
theorem c10_synthesis_type_error (cap : Capability) (st : JVal)
    (h1 : query_to_structured cap = Except.ok st)
    (h2 : isDict st = true) (h3 : hasKey st "error" = false)
    (h4 : truthyOpt (getKey st "table_to_query") = true)
    (docs : List Document) (hd : docs ≠ []) (synth : String) :
    pyKwargsCheck "generate_user_response_from_file" generate_user_response_accepted_kwargs
        collect_call_kwargs =
      Except.error
        "generate_user_response_from_file() got an unexpected keyword argument \x27conversation_history\x27" ∧
    collect_relevant_context cap (Except.ok (some docs)) synth =
      "I found some notes but couldn\x27t craft a response (generate_user_response_from_file() got an unexpected keyword argument \x27conversation_history\x27)." := by
  refine ⟨rfl, ?_⟩
  simp only [collect_relevant_context, h1]
  rw [if_neg (by rw [h2, h3]; simp)]
  rw [if_neg (by rw [h4]; simp)]
  cases docs with
  | nil => exact absurd rfl hd
  | cons d ds => rfl

/-- Witness for C10. -/
theorem c10_synthesis_type_error_witness :
    pyKwargsCheck "generate_user_response_from_file" generate_user_response_accepted_kwargs
        collect_call_kwargs =
      Except.error
        "generate_user_response_from_file() got an unexpected keyword argument \x27conversation_history\x27" ∧
    collect_relevant_context
        (Capability.response 200 "" "\x7b\"table_to_query\": \"grades\"\x7d")
        (Except.ok (some [⟨"notes", []⟩])) "" =
      "I found some notes but couldn\x27t craft a response (generate_user_response_from_file() got an unexpected keyword argument \x27conversation_history\x27)." :=
  c10_synthesis_type_error
    (Capability.response 200 "" "\x7b\"table_to_query\": \"grades\"\x7d")
    (JVal.obj [("table_to_query", JVal.str "grades")]) rfl rfl rfl rfl
    [⟨"notes", []⟩] (by simp) ""

theorem get_cached_results_congr (cache : ResultCache) (q1 q2 db : String) (k : Nat)
    (ms : Option ℚ) (h : searchKey q1 db k ms = searchKey q2 db k ms) :
    get_cached_results cache q1 db k ms = get_cached_results cache q2 db k ms := by
  unfold get_cached_results
  rw [h]

theorem get_cached_results_after_store (cache : ResultCache) (q1 q2 db : String) (k : Nat)
    (ms : Option ℚ) (res : List (Document × ℚ))
    (h : searchKey q1 db k ms = searchKey q2 db k ms) :
    get_cached_results (cache_results cache q1 db k ms res) q2 db k ms = some res := by
  unfold get_cached_results cache_results
  rw [List.find?_cons_of_pos _ (by simp [h])]
  rfl

theorem candidatePairs_empty_congr (env : SearchEnv)
    (hstore : ∀ db q1 q2 k1 k2, env.indexSearch db q1 k1 = [] → env.indexSearch db q2 k2 = [])
    (q1 q2 db : String) (k : Nat) (h : candidatePairs env q1 k db = []) :
    candidatePairs env q2 k db = [] := by
  unfold candidatePairs at h ⊢
  exact hstore db _ _ _ _ h

/-- C5: two perform_search calls whose queries agree after trimming and
lower-casing, with the same database, k and min_score, share one cache key
(so the queries with extra spacing and different case share one entry), and
when the first call returns a result list, the second call returns exactly
that list and leaves the cache unchanged; the store-regularity hypothesis
reflects that a FAISS index returns an empty candidate list for one query
only when it is empty for every query. -/
theorem c5_cache_idempotence (env : SearchEnv)
    (hstore : ∀ db q1 q2 k1 k2, env.indexSearch db q1 k1 = [] → env.indexSearch db q2 k2 = [])
    (cache : ResultCache) (q1 q2 db : String) (k : Nat) (ms : Option ℚ)
    (r : List (Document × ℚ))
    (hq : pyLower (pyStrip q1) = pyLower (pyStrip q2))
    (h1 : (perform_search env cache q1 k db ms).result = some r) :
    searchKey q1 db k ms = searchKey q2 db k ms ∧
    (∀ db2 k2 ms2, searchKey " Grades  " db2 k2 ms2 = searchKey "grades" db2 k2 ms2) ∧
    (perform_search env ((perform_search env cache q1 k db ms).cache) q2 k db ms).result =
      some r ∧
    (perform_search env ((perform_search env cache q1 k db ms).cache) q2 k db ms).cache =
      (perform_search env cache q1 k db ms).cache := by
  have hkey : searchKey q1 db k ms = searchKey q2 db k ms := by
    unfold searchKey
    rw [hq]
  have hgrades : ∀ db2 k2 ms2, searchKey " Grades  " db2 k2 ms2 = searchKey "grades" db2 k2 ms2 := by
    intro db2 k2 ms2
    unfold searchKey
    rw [show pyLower (pyStrip " Grades  ") = pyLower (pyStrip "grades") from by decide]
  refine ⟨hkey, hgrades, ?_⟩
  cases hdb : env.dbExists db with
  | false =>
    simp [perform_search, hdb] at h1
  | true =>
    cases hc : get_cached_results cache q1 db k ms with
    | some r0 =>
      have hr : r0 = r := by simpa [perform_search, hdb, hc] using h1
      subst hr
      have hcache1 : (perform_search env cache q1 k db ms).cache = cache := by
        simp [perform_search, hdb, hc]
      have hc2 : get_cached_results cache q2 db k ms = some r0 := by
        rw [← get_cached_results_congr cache q1 q2 db k ms hkey]
        exact hc
      rw [hcache1]
      exact ⟨by simp [perform_search, hdb, hc2], by simp [perform_search, hdb, hc2]⟩
    | none =>
      have hc2 : get_cached_results cache q2 db k ms = none := by
        rw [← get_cached_results_congr cache q1 q2 db k ms hkey]
        exact hc
      cases hp : (candidatePairs env q1 k db).isEmpty with
      | true =>
        have hpe : candidatePairs env q1 k db = [] := List.isEmpty_iff.mp hp
        have hp2 : candidatePairs env q2 k db = [] :=
          candidatePairs_empty_congr env hstore q1 q2 db k hpe
        have hr : r = [] := by
          have h1x := h1
          simp [perform_search, hdb, hc, searchCompute, hp] at h1x
          exact h1x
        subst hr
        have hcache1 : (perform_search env cache q1 k db ms).cache = cache := by
          simp [perform_search, hdb, hc, searchCompute, hp]
        rw [hcache1]
        constructor
        · simp [perform_search, hdb, hc2, searchCompute, List.isEmpty_iff.mpr hp2]
        · simp [perform_search, hdb, hc2, searchCompute, List.isEmpty_iff.mpr hp2]
      | false =>
        have hr : r = searchRank (candidatePairs env q1 k db)
            (extract_identifiers (pyStrip q1)) ms k := by
          have h1x := h1
          simp [perform_search, hdb, hc, searchCompute, hp] at h1x
          exact h1x.symm
        have hcache1 : (perform_search env cache q1 k db ms).cache =
            cache_results cache q1 db k ms (searchRank (candidatePairs env q1 k db)
              (extract_identifiers (pyStrip q1)) ms k) := by
          simp [perform_search, hdb, hc, searchCompute, hp]
        have hhit := get_cached_results_after_store cache q1 q2 db k ms
          (searchRank (candidatePairs env q1 k db) (extract_identifiers (pyStrip q1)) ms k) hkey
        rw [hcache1]
        constructor
        · simp [perform_search, hdb, hhit, hr]
        · simp [perform_search, hdb, hhit]

/-- Witness for C5. -/
theorem c5_cache_idempotence_witness :
    searchKey " Grades  " "grades" 5 none = searchKey "grades" "grades" 5 none ∧
    (∀ db2 k2 ms2, searchKey " Grades  " db2 k2 ms2 = searchKey "grades" db2 k2 ms2) ∧
    (perform_search envSingle
        ((perform_search envSingle [] " Grades  " 5 "grades" none).cache)
        "grades" 5 "grades" none).result = some [(docMeta, simOf 0)] ∧
    (perform_search envSingle
        ((perform_search envSingle [] " Grades  " 5 "grades" none).cache)
        "grades" 5 "grades" none).cache =
      (perform_search envSingle [] " Grades  " 5 "grades" none).cache :=
  c5_cache_idempotence envSingle
    (fun db q1 q2 k1 k2 h => absurd h (by simp [envSingle]))
    [] " Grades  " "grades" "grades" 5 none [(docMeta, simOf 0)] (by decide) rfl
